import Mathlib

/-!
Shallow embedding of the Pierre Git Storage Python SDK
(`src/packages/code-storage-python/pierre_storage/client.py`) and proofs
about its request-building and response-mapping logic.

The HTTP transport and the cryptographic JWT signing are external
collaborators; the embedding models each public operation as a pure
function from its inputs (and, where relevant, an abstract HTTP response)
to the request it builds and the result or error it produces.

Modules `pierre_storage.errors`, `pierre_storage.repo`,
`pierre_storage.auth`, `pierre_storage.types` and `pierre_storage.version`
are imported by `client.py` but their sources are not available; the few
pieces of them that matter here (the error taxonomy, the
`DEFAULT_TOKEN_TTL_SECONDS` constant, the claims embedded in a signed
token, the fields of a repo handle) are modelled from the spec and marked
as such in their doc comments.
-/

namespace PierreStorage

/-- A Python value sitting in a dict slot that the code type-checks at
runtime: either `None`, a string, or some non-`None`, non-string value. -/
inductive PyVal where
  | pyNone
  | pyStr (s : String)
  | pyOther
  deriving DecidableEq, Repr

/-- Errors raised by `client.py`. The code raises `ValueError` during
construction and `ApiError(message, status_code=...)` for HTTP failures;
`keyError` models Python's `KeyError` from a missing mandatory dict key. -/
inductive SdkError where
  | valueError (message : String)
  | apiError (message : String) (statusCode : Option Nat)
  | keyError (key : String)
  deriving DecidableEq, Repr

/-- Modelled from the spec: `pierre_storage.errors` is not in the sources.
Per the spec's Error Mapper taxonomy, a ConfigurationError is the failure
of invalid client construction (the `ValueError` raised by `__init__`). -/
def SdkError.isConfigurationError : SdkError → Bool
  | .valueError _ => true
  | _ => false

/-- Modelled from the spec: `pierre_storage.errors` is not in the sources.
Per the spec's Error Mapper taxonomy, a ConflictError is the typed failure
for an HTTP 409 response. -/
def SdkError.isConflictError : SdkError → Bool
  | .apiError _ (some 409) => true
  | _ => false

/-- Modelled from the spec: `pierre_storage.errors` is not in the sources.
Per the spec's Error Mapper taxonomy, a NotFoundError is the typed failure
for an HTTP 404 response (delete only). -/
def SdkError.isNotFoundError : SdkError → Bool
  | .apiError _ (some 404) => true
  | _ => false

/-- Any API-layer failure (carries a status code and message). -/
def SdkError.isApiError : SdkError → Bool
  | .apiError _ _ => true
  | _ => false

/-- Modelled from the spec: `pierre_storage.auth.generate_jwt` is not in
the sources. Per the spec, a capability token is a signed assertion
embedding the signing key's identity, the organization, the subject, the
permission set and the expiry derived from the ttl; we record exactly the
arguments `client.py` passes to `generate_jwt(key, name, repo_id,
permissions, ttl)`. -/
structure SignedToken where
  key : String
  org : String
  subject : String
  permissions : List String
  ttl : Nat
  deriving DecidableEq, Repr

/-- Modelled from the spec: `pierre_storage.repo.DEFAULT_TOKEN_TTL_SECONDS`
is not in the sources; the spec fixes the default token time-to-live at
31,536,000 seconds (1 year). -/
def DEFAULT_TOKEN_TTL_SECONDS : Nat := 31536000

/-- `DEFAULT_API_BASE_URL` in `client.py`. -/
def DEFAULT_API_BASE_URL : String := "https://api.\x7b\x7borg\x7d\x7d.code.storage"

/-- `DEFAULT_STORAGE_BASE_URL` in `client.py`. -/
def DEFAULT_STORAGE_BASE_URL : String := "\x7b\x7borg\x7d\x7d.code.storage"

/-- `DEFAULT_API_VERSION` in `client.py`. -/
def DEFAULT_API_VERSION : Nat := 1

/-- Python's `str.replace` on character lists for a non-empty pattern:
scan left to right, splice the replacement at each occurrence of the
pattern, and never re-scan spliced text. (For the empty pattern the
callers below never use, we return the input unchanged.) -/
def listReplace (pattern repl : List Char) : List Char → List Char
  | [] => []
  | c :: rest =>
    if h : pattern ≠ [] ∧ pattern.isPrefixOf (c :: rest) then
      repl ++ listReplace pattern repl ((c :: rest).drop pattern.length)
    else
      c :: listReplace pattern repl rest
termination_by l => l.length
decreasing_by
  · simp only [List.length_drop, List.length_cons]
    have hlen : 1 ≤ pattern.length := by
      cases pattern with
      | nil => exact absurd rfl h.1
      | cons _ _ => simp
    omega
  · simp

/-- Python's `str.replace` lifted to `String`. -/
def pyReplace (s pattern repl : String) : String :=
  ⟨listReplace pattern.data repl.data s.data⟩

/-- `GitStorage.get_default_api_base_url`:
`DEFAULT_API_BASE_URL.replace("{{org}}", name)`. -/
def get_default_api_base_url (name : String) : String :=
  pyReplace DEFAULT_API_BASE_URL "\x7b\x7borg\x7d\x7d" name

/-- `GitStorage.get_default_storage_base_url`:
`DEFAULT_STORAGE_BASE_URL.replace("{{org}}", name)`. -/
def get_default_storage_base_url (name : String) : String :=
  pyReplace DEFAULT_STORAGE_BASE_URL "\x7b\x7borg\x7d\x7d" name

/-- The `GitStorageOptions` dict passed to `GitStorage.__init__`.
`Option` is key presence; `name`/`key` slots hold arbitrary runtime
values because `__init__` type-checks them. For `api_base_url`,
`storage_base_url`, `api_version` and `default_ttl` only the values their
resolution logic distinguishes are modelled (strings resp. integers). -/
structure GitStorageOptions where
  name : Option PyVal
  key : Option PyVal
  api_base_url : Option String
  storage_base_url : Option String
  api_version : Option Nat
  default_ttl : Option Nat
  deriving DecidableEq, Repr

/-- The resolved `self.options` after a successful `__init__`:
`default_ttl` is stored only when the supplied value was truthy. -/
structure ResolvedConfig where
  name : String
  key : String
  api_base_url : String
  storage_base_url : String
  api_version : Nat
  default_ttl : Option Nat
  deriving DecidableEq, Repr

/-- Python truthiness of an optional string (`None` and `""` are falsy). -/
def strTruthy : Option String → Bool
  | some s => s ≠ ""
  | none => false

/-- Python truthiness of an optional integer (`None` and `0` are falsy). -/
def natTruthy : Option Nat → Bool
  | some n => n ≠ 0
  | none => false

/-- Python's `not s.strip()`: a string is blank when every character is
whitespace (stripping leading and trailing whitespace leaves nothing). -/
def isBlank (s : String) : Bool :=
  s.data.all (fun c => c.isWhitespace)

/-- `GitStorage.__init__`: validates `name`/`key`, resolves the URLs, the
API version and the optional default ttl. Python's `not s.strip()`
truthiness check is modelled by `isBlank`. -/
def GitStorage.init (options : GitStorageOptions) : Except SdkError ResolvedConfig :=
  match options.name, options.key with
  | none, _ =>
      .error (.valueError "GitStorage requires a name and key. Please check your configuration and try again.")
  | _, none =>
      .error (.valueError "GitStorage requires a name and key. Please check your configuration and try again.")
  | some nameVal, some keyVal =>
    if nameVal = .pyNone ∨ keyVal = .pyNone then
      .error (.valueError "GitStorage requires a name and key. Please check your configuration and try again.")
    else
      match nameVal with
      | .pyStr name =>
        if isBlank name then
          .error (.valueError "GitStorage name must be a non-empty string.")
        else
          match keyVal with
          | .pyStr key =>
            if isBlank key then
              .error (.valueError "GitStorage key must be a non-empty string.")
            else
              .ok {
                name := name
                key := key
                api_base_url :=
                  if strTruthy options.api_base_url then options.api_base_url.getD ""
                  else get_default_api_base_url name
                storage_base_url :=
                  if strTruthy options.storage_base_url then options.storage_base_url.getD ""
                  else get_default_storage_base_url name
                api_version :=
                  if natTruthy options.api_version then options.api_version.getD 0
                  else DEFAULT_API_VERSION
                default_ttl :=
                  if natTruthy options.default_ttl then options.default_ttl else none
              }
          | _ => .error (.valueError "GitStorage key must be a non-empty string.")
      | _ => .error (.valueError "GitStorage name must be a non-empty string.")

/-- A `ttl` entry of the options dict passed to `_generate_jwt`; the code
checks `isinstance(option_ttl, int)` at runtime. -/
inductive TtlVal where
  | int (n : Nat)
  | nonInt
  deriving DecidableEq, Repr

/-- The options dict passed to `_generate_jwt` (`Option` is key
presence). -/
structure JwtOptions where
  permissions : Option (List String)
  ttl : Option TtlVal
  deriving DecidableEq, Repr

/-- Python truthiness of the `_generate_jwt` options dict: an empty dict
is falsy. -/
def JwtOptions.truthy (o : JwtOptions) : Bool :=
  o.permissions.isSome || o.ttl.isSome

/-- `GitStorage._generate_jwt`: resolves permissions and ttl, then calls
`generate_jwt(key, name, repo_id, permissions, ttl)`. -/
def generateJwt (cfg : ResolvedConfig) (repo_id : String)
    (options : Option JwtOptions) : SignedToken :=
  let permissions : List String :=
    match options with
    | some o =>
      if o.truthy then
        match o.permissions with
        | some p => p
        | none => ["git:write", "git:read"]
      else ["git:write", "git:read"]
    | none => ["git:write", "git:read"]
  let ttl : Nat :=
    match options with
    | some o =>
      if o.truthy then
        match o.ttl with
        | some (.int n) => n
        | _ => 31536000
      else match cfg.default_ttl with
        | some t => t
        | none => 31536000
    | none =>
      match cfg.default_ttl with
      | some t => t
      | none => 31536000
  { key := cfg.key, org := cfg.name, subject := repo_id
    permissions := permissions, ttl := ttl }

/-- A fork base-repo spec (`pierre_storage.types` is not in the sources;
fields follow the spec's BaseRepoSpec union and the keys `client.py`
reads: `id`, optional `ref`, optional `sha`). -/
structure ForkBaseRepo where
  id : String
  ref : Option String
  sha : Option String
  deriving DecidableEq, Repr

/-- A GitHub base-repo spec (fields per the spec's BaseRepoSpec union and
the keys `client.py` reads: optional `provider`, `owner`, `name`,
optional `default_branch`). -/
structure GitHubBaseRepo where
  provider : Option String
  owner : String
  name : String
  default_branch : Option String
  deriving DecidableEq, Repr

/-- The `base_repo` argument of `create_repo`; `client.py` discriminates
by the presence of an `id` key. -/
inductive BaseRepo where
  | fork (f : ForkBaseRepo)
  | github (g : GitHubBaseRepo)
  deriving DecidableEq, Repr

/-- The fork `base_repo` payload `create_repo` builds. -/
structure ForkPayload where
  provider : String
  owner : String
  name : String
  operation : String
  auth_token : SignedToken
  ref : Option String
  sha : Option String
  deriving DecidableEq, Repr

/-- The GitHub `base_repo` payload `create_repo` builds
(`{"provider": "github", **github_repo}`: a provider supplied on the spec
wins the dict merge). -/
structure GitHubPayload where
  provider : String
  owner : String
  name : String
  default_branch : Option String
  deriving DecidableEq, Repr

/-- The `base_repo` field of the request body. -/
inductive BaseRepoPayload where
  | fork (p : ForkPayload)
  | github (g : GitHubPayload)
  deriving DecidableEq, Repr

/-- The JSON body `create_repo` posts; `none` means the field is not
sent. -/
structure CreateRepoBody where
  default_branch : Option String
  base_repo : Option BaseRepoPayload
  deriving DecidableEq, Repr

/-- Everything `create_repo` computes before the HTTP round trip: the
resolved repo id, the bearer token, the request body, and the local
`resolved_default_branch` variable. `genId` stands for the
`str(uuid.uuid4())` the code generates when `id` is falsy. -/
structure CreateRepoRequest where
  repo_id : String
  jwt : SignedToken
  body : CreateRepoBody
  resolved_default_branch : Option String
  deriving DecidableEq, Repr

/-- The request-building phase of `GitStorage.create_repo`
(`client.py` lines 129-182). -/
def createRepoRequest (cfg : ResolvedConfig) (id : Option String) (genId : String)
    (default_branch : Option String) (base_repo : Option BaseRepo)
    (ttl : Option Nat) : CreateRepoRequest :=
  let repo_id := if strTruthy id then id.getD "" else genId
  let ttl := if natTruthy ttl then ttl.getD 0 else DEFAULT_TOKEN_TTL_SECONDS
  let jwt := generateJwt cfg repo_id (some ⟨some ["repo:write"], some (.int ttl)⟩)
  let explicit := default_branch.isSome
  match base_repo with
  | some (.fork f) =>
    let base_repo_token := generateJwt cfg f.id (some ⟨some ["git:read"], some (.int ttl)⟩)
    let payload : ForkPayload :=
      { provider := "code", owner := cfg.name, name := f.id, operation := "fork"
        auth_token := base_repo_token
        ref := if strTruthy f.ref then f.ref else none
        sha := if strTruthy f.sha then f.sha else none }
    { repo_id := repo_id, jwt := jwt
      body := { default_branch := if explicit then default_branch else none
                base_repo := some (.fork payload) }
      resolved_default_branch := if explicit then default_branch else none }
  | some (.github g) =>
    let resolved : Option String :=
      if strTruthy g.default_branch then g.default_branch
      else if explicit then default_branch
      else some "main"
    { repo_id := repo_id, jwt := jwt
      body := { default_branch := resolved
                base_repo := some (.github
                  { provider := g.provider.getD "github", owner := g.owner
                    name := g.name, default_branch := g.default_branch }) }
      resolved_default_branch := resolved }
  | none =>
    let resolved : Option String := if explicit then default_branch else some "main"
    { repo_id := repo_id, jwt := jwt
      body := { default_branch := resolved, base_repo := none }
      resolved_default_branch := resolved }

/-- The status line of an HTTP response. -/
structure HttpResponse where
  status_code : Nat
  reason_phrase : String
  deriving DecidableEq, Repr

/-- httpx `response.is_success`: status in [200, 300). -/
def isSuccess (status : Nat) : Bool :=
  200 ≤ status && status < 300

/-- Modelled from the spec: `pierre_storage.repo.RepoImpl` is not in the
sources; per the spec a Repo handle holds the repository id, resolved
default branch, the base URLs, organization name, protocol version and
created-at timestamp (plus a token issuer, which carries no data beyond
the config already recorded here). -/
structure RepoHandle where
  id : String
  default_branch : String
  api_base_url : String
  storage_base_url : String
  name : String
  api_version : Nat
  created_at : String
  deriving DecidableEq, Repr

/-- `GitStorage.create_repo`: request building plus response mapping.
`now` stands for `datetime.now(timezone.utc).isoformat()`. Note Python's
`resolved_default_branch or "main"` treats an empty string as falsy. -/
def createRepo (cfg : ResolvedConfig) (id : Option String) (genId : String)
    (default_branch : Option String) (base_repo : Option BaseRepo) (ttl : Option Nat)
    (resp : HttpResponse) (now : String) : Except SdkError RepoHandle :=
  let req := createRepoRequest cfg id genId default_branch base_repo ttl
  if resp.status_code = 409 then
    .error (.apiError "Repository already exists" (some 409))
  else if isSuccess resp.status_code = false then
    .error (.apiError
      ("Failed to create repository: " ++ toString resp.status_code ++ " " ++ resp.reason_phrase)
      (some resp.status_code))
  else
    .ok { id := req.repo_id
          default_branch :=
            if strTruthy req.resolved_default_branch then req.resolved_default_branch.getD ""
            else "main"
          api_base_url := cfg.api_base_url
          storage_base_url := cfg.storage_base_url
          name := cfg.name
          api_version := cfg.api_version
          created_at := now }

/-- A JSON value as far as Python truthiness distinguishes it; used for
the `base_repo` passthrough in listings. -/
inductive Jsonish where
  | null
  | bool (b : Bool)
  | str (s : String)
  | num (n : Int)
  | obj (isEmpty : Bool)
  | arr (isEmpty : Bool)
  deriving DecidableEq, Repr

/-- Python truthiness of a JSON value. -/
def Jsonish.truthy : Jsonish → Bool
  | .null => false
  | .bool b => b
  | .str s => s ≠ ""
  | .num n => n ≠ 0
  | .obj e => !e
  | .arr e => !e

/-- One entry of the server's `repos` array (`Option` is key presence). -/
structure ServerRepoEntry where
  repo_id : Option String
  url : Option String
  default_branch : Option String
  created_at : Option String
  base_repo : Option Jsonish
  deriving DecidableEq, Repr

/-- The `RepoInfo` record `list_repos` builds; `base_repo` is a key the
code adds only conditionally. -/
structure RepoInfo where
  repo_id : String
  url : String
  default_branch : String
  created_at : String
  base_repo : Option Jsonish
  deriving DecidableEq, Repr

/-- The JSON body of a successful `list_repos` response. -/
structure ServerListData where
  repos : Option (List ServerRepoEntry)
  next_cursor : Option String
  has_more : Option Bool
  deriving DecidableEq, Repr

/-- The result record `list_repos` returns. -/
structure ListReposResult where
  repos : List RepoInfo
  next_cursor : Option String
  has_more : Bool
  deriving DecidableEq, Repr

/-- The per-entry mapping in the `list_repos` success loop
(`client.py` lines 266-275). -/
def mapRepoEntry (repo : ServerRepoEntry) : RepoInfo :=
  { repo_id := repo.repo_id.getD ""
    url := repo.url.getD ""
    default_branch := repo.default_branch.getD "main"
    created_at := repo.created_at.getD ""
    base_repo :=
      match repo.base_repo with
      | some j => if j.truthy then some j else none
      | none => none }

/-- `GitStorage.list_repos`: response mapping. -/
def listRepos (cfg : ResolvedConfig) (resp : HttpResponse) (data : ServerListData) :
    Except SdkError ListReposResult :=
  if isSuccess resp.status_code = false then
    .error (.apiError
      ("Failed to list repositories: " ++ toString resp.status_code ++ " " ++ resp.reason_phrase)
      (some resp.status_code))
  else
    .ok { repos := (data.repos.getD []).map mapRepoEntry
          next_cursor := data.next_cursor
          has_more := data.has_more.getD false }

/-- The JSON body of a successful `find_one` response (`Option` is key
presence; `.get` with a default is used for both keys). -/
structure FindOneResponseBody where
  default_branch : Option String
  created_at : Option String
  deriving DecidableEq, Repr

/-- `GitStorage.find_one`: response mapping (the 404 check precedes the
success check). -/
def findOne (cfg : ResolvedConfig) (id : String) (resp : HttpResponse)
    (body : FindOneResponseBody) : Except SdkError (Option RepoHandle) :=
  if resp.status_code = 404 then
    .ok none
  else if isSuccess resp.status_code = false then
    .error (.apiError
      ("Failed to find repository: " ++ toString resp.status_code ++ " " ++ resp.reason_phrase)
      (some resp.status_code))
  else
    .ok (some
      { id := id
        default_branch := body.default_branch.getD "main"
        api_base_url := cfg.api_base_url
        storage_base_url := cfg.storage_base_url
        name := cfg.name
        api_version := cfg.api_version
        created_at := body.created_at.getD "" })

/-- The JSON body of a successful `delete_repo` response; the code
indexes `body["repo_id"]` and `body["message"]` directly, so a missing
key raises `KeyError`. -/
structure DeleteResponseBody where
  repo_id : Option String
  message : Option String
  deriving DecidableEq, Repr

/-- The result record `delete_repo` returns. -/
structure DeleteRepoResult where
  repo_id : String
  message : String
  deriving DecidableEq, Repr

/-- `GitStorage.delete_repo`: response mapping (404, then 409, then the
generic non-2xx check; `body["repo_id"]` is evaluated before
`body["message"]`). -/
def deleteRepo (cfg : ResolvedConfig) (id : String) (ttl : Option Nat)
    (resp : HttpResponse) (body : DeleteResponseBody) : Except SdkError DeleteRepoResult :=
  if resp.status_code = 404 then
    .error (.apiError "Repository not found" (some 404))
  else if resp.status_code = 409 then
    .error (.apiError "Repository already deleted" (some 409))
  else if isSuccess resp.status_code = false then
    .error (.apiError
      ("Failed to delete repository: " ++ toString resp.status_code ++ " " ++ resp.reason_phrase)
      (some resp.status_code))
  else
    match body.repo_id with
    | none => .error (.keyError "repo_id")
    | some r =>
      match body.message with
      | none => .error (.keyError "message")
      | some m => .ok { repo_id := r, message := m }

/-! ### Concrete sample data used in closed evaluations -/

/-- Construction options with only name and key supplied. -/
def sampleOptions : GitStorageOptions :=
  { name := some (.pyStr "acme"), key := some (.pyStr "secret")
    api_base_url := none, storage_base_url := none
    api_version := none, default_ttl := none }

/-- The configuration `GitStorage.init sampleOptions` resolves to. -/
def sampleConfig : ResolvedConfig :=
  { name := "acme", key := "secret"
    api_base_url := get_default_api_base_url "acme"
    storage_base_url := get_default_storage_base_url "acme"
    api_version := 1, default_ttl := none }

/-- `sampleConfig` with a per-client default ttl of 3600 seconds. -/
def sampleConfigTtl : ResolvedConfig :=
  { sampleConfig with default_ttl := some 3600 }

/-! ### Helper lemmas -/

/-- Evaluating Python replace on the API URL template splices the
organization name between the fixed halves. -/
theorem get_default_api_base_url_eq (o : String) :
    get_default_api_base_url o = "https://api." ++ o ++ ".code.storage" := by
  apply String.ext
  show listReplace _ _ _ = _
  simp [listReplace, DEFAULT_API_BASE_URL, List.isPrefixOf, String.append]

/-- Evaluating Python replace on the storage URL template splices the
organization name before the fixed suffix. -/
theorem get_default_storage_base_url_eq (o : String) :
    get_default_storage_base_url o = o ++ ".code.storage" := by
  apply String.ext
  show listReplace _ _ _ = _
  simp [listReplace, DEFAULT_STORAGE_BASE_URL, List.isPrefixOf, String.append]

/-! ### Claim C9: default URL templates -/

/-- The URL templates exactly as claim C9 words them. -/
def claimC9ApiUrl (o : String) : String := "https://api." ++ o ++ ".example"

/-- The storage URL template exactly as claim C9 words it. -/
def claimC9StorageUrl (o : String) : String := o ++ ".example"

/-- Claim C9 (counterexample): for organization "acme" the resolved
default URLs end in the real domain `.code.storage`, not the `.example`
domain the claim names. -/
theorem defaultUrls_example_domain_counterexample :
    get_default_api_base_url "acme" = "https://api.acme.code.storage"
    ∧ get_default_api_base_url "acme" ≠ claimC9ApiUrl "acme"
    ∧ get_default_storage_base_url "acme" = "acme.code.storage"
    ∧ get_default_storage_base_url "acme" ≠ claimC9StorageUrl "acme" := by
  have h1 : get_default_api_base_url "acme" = "https://api.acme.code.storage" := by
    rw [get_default_api_base_url_eq]; rfl
  have h2 : get_default_storage_base_url "acme" = "acme.code.storage" := by
    rw [get_default_storage_base_url_eq]; rfl
  refine ⟨h1, ?_, h2, ?_⟩
  · rw [h1]; decide
  · rw [h2]; decide

/-- Claim C9 (amended): for every organization name `o`, the default API
base URL is `https://api.<o>.code.storage` and the default storage base
URL is `<o>.code.storage` (deterministic functions of `o` alone), and a
construction that supplies no URLs resolves exactly these defaults for
its validated organization name. -/
theorem defaultUrls_from_org_name (o : String) :
    get_default_api_base_url o = "https://api." ++ o ++ ".code.storage"
    ∧ get_default_storage_base_url o = o ++ ".code.storage"
    ∧ ∀ (opts : GitStorageOptions) (cfg : ResolvedConfig),
        opts.api_base_url = none → opts.storage_base_url = none →
        GitStorage.init opts = .ok cfg →
        cfg.api_base_url = "https://api." ++ cfg.name ++ ".code.storage"
        ∧ cfg.storage_base_url = cfg.name ++ ".code.storage" := by
  refine ⟨get_default_api_base_url_eq o, get_default_storage_base_url_eq o, ?_⟩
  intro opts cfg hapi hstore hinit
  unfold GitStorage.init at hinit
  rw [hapi, hstore] at hinit
  simp only [strTruthy, Bool.false_eq_true, if_false] at hinit
  repeat' split at hinit
  all_goals try simp only [Except.ok.injEq] at hinit
  all_goals try exact absurd hinit (by simp)
  all_goals try subst hinit
  all_goals simp [get_default_api_base_url_eq, get_default_storage_base_url_eq]

/-- Claim C9 (witness): constructing with only name "acme" and a key
resolves exactly the default URLs derived from the organization name. -/
theorem defaultUrls_from_org_name_witness :
    sampleConfig.api_base_url = "https://api." ++ sampleConfig.name ++ ".code.storage"
    ∧ sampleConfig.storage_base_url = sampleConfig.name ++ ".code.storage" :=
  (defaultUrls_from_org_name "acme").2.2 sampleOptions sampleConfig rfl rfl rfl

/-! ### Claim C1: default-branch precedence in `create_repo` -/

/-- The `default_branch` field of the create-repo body exactly as claim
C1 words the precedence: for a GitHub spec the spec's own
`default_branch` "wins if present". -/
def claimC1DefaultBranch (default_branch : Option String) (base_repo : Option BaseRepo) :
    Option String :=
  match base_repo with
  | some (.fork _) => default_branch
  | some (.github g) =>
    match g.default_branch with
    | some b => some b
    | none => some (default_branch.getD "main")
  | none => some (default_branch.getD "main")

/-- A GitHub base-repo spec whose `default_branch` key is present but
holds the empty string. -/
def githubEmptyBranchSpec : GitHubBaseRepo :=
  { provider := none, owner := "octo", name := "hello", default_branch := some "" }

/-- Claim C1 (counterexample): with a GitHub spec whose `default_branch`
key is present but empty and an explicit `default_branch` argument
`"dev"`, the code sends `"dev"` (the present field does not win), while
the claim's precedence sends the empty string. -/
theorem createRepo_defaultBranch_claim_counterexample :
    (createRepoRequest sampleConfig none "gen-id" (some "dev")
        (some (.github githubEmptyBranchSpec)) none).body.default_branch = some "dev"
    ∧ claimC1DefaultBranch (some "dev") (some (.github githubEmptyBranchSpec)) = some ""
    ∧ (some "dev" : Option String) ≠ some "" := by
  refine ⟨rfl, rfl, by decide⟩

/-- The `default_branch` field per the amended claim C1: as claimed,
except that a GitHub spec's own `default_branch` wins only when it is
present and truthy (non-empty). -/
def amendedC1DefaultBranch (default_branch : Option String) (base_repo : Option BaseRepo) :
    Option String :=
  match base_repo with
  | some (.fork _) => default_branch
  | some (.github g) =>
    if strTruthy g.default_branch then g.default_branch
    else some (default_branch.getD "main")
  | none => some (default_branch.getD "main")

/-- Claim C1 (amended): for every call to `create_repo`, the
`default_branch` sent in the request body follows the claimed precedence
with one correction: (1) fork spec — the explicit argument if provided,
else no field; (2) GitHub spec — its own `default_branch` if present and
non-empty, else the explicit argument, else `"main"`; (3) no base repo —
the explicit argument if provided, else `"main"`. -/
theorem createRepo_defaultBranch_precedence (cfg : ResolvedConfig) (id : Option String)
    (genId : String) (default_branch : Option String) (base_repo : Option BaseRepo)
    (ttl : Option Nat) :
    (createRepoRequest cfg id genId default_branch base_repo ttl).body.default_branch
      = amendedC1DefaultBranch default_branch base_repo := by
  rcases base_repo with _ | b
  · cases default_branch <;> simp [createRepoRequest, amendedC1DefaultBranch]
  · cases b with
    | fork f => cases default_branch <;> simp [createRepoRequest, amendedC1DefaultBranch]
    | github g =>
      rcases hg : g.default_branch with _ | s
      · cases default_branch <;>
          simp [createRepoRequest, amendedC1DefaultBranch, strTruthy, hg]
      · by_cases hs : s = "" <;> cases default_branch <;>
          simp [createRepoRequest, amendedC1DefaultBranch, strTruthy, hg, hs]

/-! ### Claim C2: ttl precedence in token issuance -/

/-- The ttl exactly as claim C2 words the precedence: explicit call-site
ttl, else the per-client default, else the 1-year fallback. -/
def claimC2Ttl (callSiteTtl : Option Nat) (clientDefaultTtl : Option Nat) : Nat :=
  match callSiteTtl with
  | some t => t
  | none =>
    match clientDefaultTtl with
    | some t => t
    | none => 31536000

/-- Claim C2 (counterexample): with a per-client default ttl of 3600 and
no call-site ttl, `create_repo` issues its token with the 1-year
constant — `ttl = ttl or DEFAULT_TOKEN_TTL_SECONDS` never consults the
per-client default — while the claim's precedence yields 3600. -/
theorem createRepo_ttl_claim_counterexample :
    (createRepoRequest sampleConfigTtl none "gen-id" none none none).jwt.ttl = 31536000
    ∧ claimC2Ttl none sampleConfigTtl.default_ttl = 3600
    ∧ (31536000 : Nat) ≠ 3600 := by
  refine ⟨rfl, rfl, by decide⟩

/-- The ttl `_generate_jwt` uses, per the amended claim C2. -/
def amendedC2Ttl (options : Option JwtOptions) (clientDefaultTtl : Option Nat) : Nat :=
  match options with
  | some o =>
    if o.truthy then
      match o.ttl with
      | some (.int n) => n
      | _ => 31536000
    else clientDefaultTtl.getD 31536000
  | none => clientDefaultTtl.getD 31536000

/-- The permission set `_generate_jwt` uses, per the amended claim C2. -/
def amendedC2Permissions (options : Option JwtOptions) : List String :=
  match options with
  | some o =>
    if o.truthy then o.permissions.getD ["git:write", "git:read"]
    else ["git:write", "git:read"]
  | none => ["git:write", "git:read"]

/-- Claim C2 (amended): in `_generate_jwt` an explicit integer ttl in the
options wins; the per-client default ttl is consulted only when no (or
empty) options are passed; options passed without an integer ttl fall
back to 31,536,000 even when a per-client default is configured; the
default permission set when none is specified is
`{git:write, git:read}`. `create_repo` always passes options carrying a
ttl — the truthy call-site ttl or the fixed `DEFAULT_TOKEN_TTL_SECONDS`
constant — so its tokens never use the per-client default. -/
theorem generateJwt_ttl_permissions (cfg : ResolvedConfig) (repo_id : String)
    (options : Option JwtOptions) :
    (generateJwt cfg repo_id options).ttl = amendedC2Ttl options cfg.default_ttl
    ∧ (generateJwt cfg repo_id options).permissions = amendedC2Permissions options
    ∧ ∀ (id : Option String) (genId : String) (default_branch : Option String)
        (base_repo : Option BaseRepo) (ttl : Option Nat),
        (createRepoRequest cfg id genId default_branch base_repo ttl).jwt.ttl
          = (if natTruthy ttl then ttl.getD 0 else DEFAULT_TOKEN_TTL_SECONDS) := by
  refine ⟨?_, ?_, ?_⟩
  · rcases options with _ | o
    · simp [generateJwt, amendedC2Ttl]
      cases cfg.default_ttl <;> simp
    · rcases ht : o.ttl with _ | t
      · by_cases ho : o.truthy <;>
          simp [generateJwt, amendedC2Ttl, ho, ht] <;>
          try cases cfg.default_ttl <;> simp
      · cases t <;> by_cases ho : o.truthy <;>
          simp [generateJwt, amendedC2Ttl, ho, ht] <;>
          try cases cfg.default_ttl <;> simp
  · rcases options with _ | o
    · simp [generateJwt, amendedC2Permissions]
    · rcases hp : o.permissions with _ | p <;>
        by_cases ho : o.truthy <;>
        simp [generateJwt, amendedC2Permissions, ho, hp]
  · intro id genId default_branch base_repo ttl
    rcases base_repo with _ | b
    · simp [createRepoRequest, generateJwt, JwtOptions.truthy]
    · cases b <;> simp [createRepoRequest, generateJwt, JwtOptions.truthy]

/-! ### Claim C6: construction validation -/

/-- Discriminator for construction results. -/
def constructionSucceeds (r : Except SdkError ResolvedConfig) : Bool :=
  match r with
  | .ok _ => true
  | .error _ => false

/-- Validity of one name/key option slot as claim C6 words it: the key
is present and holds a non-blank string. -/
def validNameKeyField : Option PyVal → Bool
  | some (.pyStr s) => !(isBlank s)
  | _ => false

/-- Claim C6: construction succeeds exactly when both the organization
name and the signing key are present, non-blank strings, and every
construction failure is a ConfigurationError. (The embedded `__init__`
is a pure function: no network activity can precede the failure.) -/
theorem init_validates_name_and_key (opts : GitStorageOptions) :
    constructionSucceeds (GitStorage.init opts)
      = (validNameKeyField opts.name && validNameKeyField opts.key)
    ∧ ∀ e, GitStorage.init opts = .error e → e.isConfigurationError = true := by
  constructor
  · rcases hn : opts.name with _ | nv
    · simp [GitStorage.init, hn, constructionSucceeds, validNameKeyField]
    · rcases hk : opts.key with _ | kv
      · simp [GitStorage.init, hn, hk, constructionSucceeds, validNameKeyField]
      · rcases nv with _ | ns | _
        · simp [GitStorage.init, hn, hk, constructionSucceeds, validNameKeyField]
        · rcases kv with _ | ks | _
          · simp [GitStorage.init, hn, hk, constructionSucceeds, validNameKeyField]
          · by_cases h1 : isBlank ns <;> by_cases h2 : isBlank ks <;>
              simp [GitStorage.init, hn, hk, constructionSucceeds, validNameKeyField, h1, h2]
          · by_cases h1 : isBlank ns <;>
              simp [GitStorage.init, hn, hk, constructionSucceeds, validNameKeyField, h1]
        · rcases kv with _ | ks | _ <;>
            simp [GitStorage.init, hn, hk, constructionSucceeds, validNameKeyField]
  · intro e he
    unfold GitStorage.init at he
    repeat' split at he
    all_goals first
      | (simp only [Except.error.injEq] at he; subst he;
         simp [SdkError.isConfigurationError])
      | exact absurd he (by simp)

/-- Construction options with neither name nor key. -/
def emptyOptions : GitStorageOptions :=
  { name := none, key := none, api_base_url := none, storage_base_url := none
    api_version := none, default_ttl := none }

/-- Claim C6 (witness): valid options construct successfully; empty
options fail with a ConfigurationError. -/
theorem init_validates_name_and_key_witness :
    constructionSucceeds (GitStorage.init sampleOptions) = true
    ∧ SdkError.isConfigurationError
        (.valueError "GitStorage requires a name and key. Please check your configuration and try again.")
        = true := by
  constructor
  · rw [(init_validates_name_and_key sampleOptions).1]; rfl
  · exact (init_validates_name_and_key emptyOptions).2 _ rfl

/-! ### Claim C4: create_repo error mapping -/

/-- Claim C4: `create_repo` maps a 409 response to a ConflictError whose
message says the repository already exists, and any other non-2xx
response to an ApiError carrying the status code and the reason. -/
theorem createRepo_error_mapping (cfg : ResolvedConfig) (id : Option String) (genId : String)
    (default_branch : Option String) (base_repo : Option BaseRepo) (ttl : Option Nat)
    (resp : HttpResponse) (now : String) :
    (resp.status_code = 409 →
      createRepo cfg id genId default_branch base_repo ttl resp now
        = .error (.apiError "Repository already exists" (some 409))
      ∧ SdkError.isConflictError (.apiError "Repository already exists" (some 409)) = true)
    ∧ (resp.status_code ≠ 409 → isSuccess resp.status_code = false →
      createRepo cfg id genId default_branch base_repo ttl resp now
        = .error (.apiError
            ("Failed to create repository: " ++ toString resp.status_code ++ " "
              ++ resp.reason_phrase)
            (some resp.status_code))
      ∧ SdkError.isApiError (.apiError
            ("Failed to create repository: " ++ toString resp.status_code ++ " "
              ++ resp.reason_phrase)
            (some resp.status_code)) = true) := by
  constructor
  · intro h409
    simp [createRepo, h409, SdkError.isConflictError]
  · intro hne hfail
    simp [createRepo, hne, hfail, SdkError.isApiError]

/-- Claim C4 (witness): a 409 and a 500 response from create, mapped. -/
theorem createRepo_error_mapping_witness :
    createRepo sampleConfig none "gen-id" none none none ⟨409, "Conflict"⟩ "t0"
      = .error (.apiError "Repository already exists" (some 409))
    ∧ createRepo sampleConfig none "gen-id" none none none ⟨500, "Internal Server Error"⟩ "t0"
      = .error (.apiError
          ("Failed to create repository: " ++ toString (500 : Nat) ++ " "
            ++ "Internal Server Error")
          (some 500)) := by
  constructor
  · exact ((createRepo_error_mapping sampleConfig none "gen-id" none none none
      ⟨409, "Conflict"⟩ "t0").1 rfl).1
  · exact ((createRepo_error_mapping sampleConfig none "gen-id" none none none
      ⟨500, "Internal Server Error"⟩ "t0").2 (by decide) rfl).1

/-! ### Claim C3: delete_repo response mapping -/

/-- Claim C3: `delete_repo` maps 404 to a NotFoundError, 409 to a
ConflictError saying the repository is already deleted, any other
non-2xx to an ApiError, and on success returns repo id and message
verbatim from the body, failing (with a `KeyError`) when either field is
absent. -/
theorem deleteRepo_response_mapping (cfg : ResolvedConfig) (id : String) (ttl : Option Nat)
    (resp : HttpResponse) (body : DeleteResponseBody) :
    (resp.status_code = 404 →
      deleteRepo cfg id ttl resp body = .error (.apiError "Repository not found" (some 404))
      ∧ SdkError.isNotFoundError (.apiError "Repository not found" (some 404)) = true)
    ∧ (resp.status_code = 409 →
      deleteRepo cfg id ttl resp body
        = .error (.apiError "Repository already deleted" (some 409))
      ∧ SdkError.isConflictError (.apiError "Repository already deleted" (some 409)) = true)
    ∧ (resp.status_code ≠ 404 → resp.status_code ≠ 409 → isSuccess resp.status_code = false →
      deleteRepo cfg id ttl resp body
        = .error (.apiError
            ("Failed to delete repository: " ++ toString resp.status_code ++ " "
              ++ resp.reason_phrase)
            (some resp.status_code)))
    ∧ (isSuccess resp.status_code = true →
      (∀ r m, body.repo_id = some r → body.message = some m →
        deleteRepo cfg id ttl resp body = .ok { repo_id := r, message := m })
      ∧ (body.repo_id = none →
        deleteRepo cfg id ttl resp body = .error (.keyError "repo_id"))
      ∧ (∀ r, body.repo_id = some r → body.message = none →
        deleteRepo cfg id ttl resp body = .error (.keyError "message"))) := by
  refine ⟨?_, ?_, ?_, ?_⟩
  · intro h
    simp [deleteRepo, h, SdkError.isNotFoundError]
  · intro h
    have h404 : resp.status_code ≠ 404 := by omega
    simp [deleteRepo, h, h404, SdkError.isConflictError]
  · intro h404 h409 hfail
    simp [deleteRepo, h404, h409, hfail]
  · intro hsucc
    have hb : 200 ≤ resp.status_code ∧ resp.status_code < 300 := by
      simpa [isSuccess] using hsucc
    have h404 : resp.status_code ≠ 404 := by omega
    have h409 : resp.status_code ≠ 409 := by omega
    refine ⟨?_, ?_, ?_⟩
    · intro r m hr hm
      simp [deleteRepo, h404, h409, hsucc, hr, hm]
    · intro hr
      simp [deleteRepo, h404, h409, hsucc, hr]
    · intro r hr hm
      simp [deleteRepo, h404, h409, hsucc, hr, hm]

/-- Claim C3 (witness): a 404 delete fails as not-found; a 200 delete
with both body fields present returns them verbatim. -/
theorem deleteRepo_response_mapping_witness :
    deleteRepo sampleConfig "repo-1" none ⟨404, "Not Found"⟩ ⟨none, none⟩
      = .error (.apiError "Repository not found" (some 404))
    ∧ deleteRepo sampleConfig "repo-1" none ⟨200, "OK"⟩ ⟨some "repo-1", some "Repository deleted"⟩
      = .ok { repo_id := "repo-1", message := "Repository deleted" } := by
  constructor
  · exact ((deleteRepo_response_mapping sampleConfig "repo-1" none ⟨404, "Not Found"⟩
      ⟨none, none⟩).1 rfl).1
  · exact ((deleteRepo_response_mapping sampleConfig "repo-1" none ⟨200, "OK"⟩
      ⟨some "repo-1", some "Repository deleted"⟩).2.2.2 rfl).1
      "repo-1" "Repository deleted" rfl rfl

/-! ### Claim C5: find_one response mapping -/

/-- Claim C5: `find_one` maps a 404 to an absent result (no error), any
other non-2xx to an ApiError, and on success builds a Repo handle from
the response's `default_branch` (defaulting to "main") and `created_at`
(defaulting to the empty string). -/
theorem findOne_response_mapping (cfg : ResolvedConfig) (id : String) (resp : HttpResponse)
    (body : FindOneResponseBody) :
    (resp.status_code = 404 → findOne cfg id resp body = .ok none)
    ∧ (resp.status_code ≠ 404 → isSuccess resp.status_code = false →
      findOne cfg id resp body
        = .error (.apiError
            ("Failed to find repository: " ++ toString resp.status_code ++ " "
              ++ resp.reason_phrase)
            (some resp.status_code))
      ∧ SdkError.isApiError (.apiError
            ("Failed to find repository: " ++ toString resp.status_code ++ " "
              ++ resp.reason_phrase)
            (some resp.status_code)) = true)
    ∧ (isSuccess resp.status_code = true →
      findOne cfg id resp body = .ok (some
        { id := id
          default_branch := body.default_branch.getD "main"
          api_base_url := cfg.api_base_url
          storage_base_url := cfg.storage_base_url
          name := cfg.name
          api_version := cfg.api_version
          created_at := body.created_at.getD "" })) := by
  refine ⟨?_, ?_, ?_⟩
  · intro h
    simp [findOne, h]
  · intro h404 hfail
    simp [findOne, h404, hfail, SdkError.isApiError]
  · intro hsucc
    have hb : 200 ≤ resp.status_code ∧ resp.status_code < 300 := by
      simpa [isSuccess] using hsucc
    have h404 : resp.status_code ≠ 404 := by omega
    simp [findOne, h404, hsucc]

/-- Claim C5 (witness): a 404 find returns an absent result; a 200 find
with no `default_branch` and a `created_at` of "2024" builds the handle
with branch "main". -/
theorem findOne_response_mapping_witness :
    findOne sampleConfig "repo-1" ⟨404, "Not Found"⟩ ⟨none, none⟩ = .ok none
    ∧ findOne sampleConfig "repo-1" ⟨200, "OK"⟩ ⟨none, some "2024"⟩
      = .ok (some
        { id := "repo-1"
          default_branch := (none : Option String).getD "main"
          api_base_url := sampleConfig.api_base_url
          storage_base_url := sampleConfig.storage_base_url
          name := sampleConfig.name
          api_version := sampleConfig.api_version
          created_at := (some "2024").getD "" }) := by
  constructor
  · exact (findOne_response_mapping sampleConfig "repo-1" ⟨404, "Not Found"⟩ ⟨none, none⟩).1 rfl
  · exact (findOne_response_mapping sampleConfig "repo-1" ⟨200, "OK"⟩ ⟨none, some "2024"⟩).2.2 rfl

/-! ### Claim C7: list_repos mapping -/

/-- Claim C7: `list_repos` maps each server entry into a RepoInfo with
`default_branch` defaulting to "main" and `url`/`repo_id`/`created_at`
defaulting to the empty string, includes `base_repo` only for truthy
server values, passes `next_cursor` and `has_more` through unchanged
(`has_more` defaulting to false), and fails with an ApiError on any
non-2xx response. -/
theorem listRepos_mapping (cfg : ResolvedConfig) (resp : HttpResponse) (data : ServerListData) :
    (isSuccess resp.status_code = false →
      listRepos cfg resp data
        = .error (.apiError
            ("Failed to list repositories: " ++ toString resp.status_code ++ " "
              ++ resp.reason_phrase)
            (some resp.status_code))
      ∧ SdkError.isApiError (.apiError
            ("Failed to list repositories: " ++ toString resp.status_code ++ " "
              ++ resp.reason_phrase)
            (some resp.status_code)) = true)
    ∧ (isSuccess resp.status_code = true →
      listRepos cfg resp data = .ok
        { repos := (data.repos.getD []).map mapRepoEntry
          next_cursor := data.next_cursor
          has_more := data.has_more.getD false })
    ∧ ∀ entry : ServerRepoEntry,
      (mapRepoEntry entry).repo_id = entry.repo_id.getD ""
      ∧ (mapRepoEntry entry).url = entry.url.getD ""
      ∧ (mapRepoEntry entry).default_branch = entry.default_branch.getD "main"
      ∧ (mapRepoEntry entry).created_at = entry.created_at.getD ""
      ∧ (∀ j, (mapRepoEntry entry).base_repo = some j →
          entry.base_repo = some j ∧ j.truthy = true)
      ∧ (∀ j, entry.base_repo = some j → j.truthy = true →
          (mapRepoEntry entry).base_repo = some j) := by
  refine ⟨?_, ?_, ?_⟩
  · intro hfail
    simp [listRepos, hfail, SdkError.isApiError]
  · intro hsucc
    simp [listRepos, hsucc]
  · intro entry
    refine ⟨rfl, rfl, rfl, rfl, ?_, ?_⟩
    · intro j hj
      rcases hb : entry.base_repo with _ | j0
      · simp [mapRepoEntry, hb] at hj
      · by_cases ht : j0.truthy
        · simp [mapRepoEntry, hb, ht] at hj
          subst hj
          exact ⟨rfl, ht⟩
        · simp [mapRepoEntry, hb, ht] at hj
    · intro j hj ht
      simp [mapRepoEntry, hj, ht]

/-- Claim C7 (witness): a 200 listing with one minimal entry and one
entry carrying a truthy `base_repo`, mapped. -/
theorem listRepos_mapping_witness :
    listRepos sampleConfig ⟨200, "OK"⟩
      { repos := some
          [ { repo_id := none, url := none, default_branch := none, created_at := none
              base_repo := none }
          , { repo_id := some "r2", url := some "u2", default_branch := some "dev"
              created_at := some "2024", base_repo := some (.obj false) } ]
        next_cursor := some "cursor-1", has_more := some true }
      = .ok
        { repos :=
            [ { repo_id := "", url := "", default_branch := "main", created_at := ""
                base_repo := none }
            , { repo_id := "r2", url := "u2", default_branch := "dev"
                created_at := "2024", base_repo := some (.obj false) } ]
          next_cursor := some "cursor-1", has_more := true } := by
  have h := (listRepos_mapping sampleConfig ⟨200, "OK"⟩
    { repos := some
        [ { repo_id := none, url := none, default_branch := none, created_at := none
            base_repo := none }
        , { repo_id := some "r2", url := some "u2", default_branch := some "dev"
            created_at := some "2024", base_repo := some (.obj false) } ]
      next_cursor := some "cursor-1", has_more := some true }).2.1 rfl
  simpa [mapRepoEntry, Jsonish.truthy] using h

/-! ### Claim C8: fork create issues a second read-scoped token -/

/-- Claim C8: for a fork base-repo spec, `create_repo` issues a second,
separate token whose subject is the fork id with permissions
`{git:read}`, embeds it as the fork payload's auth credential, and
includes `ref`/`sha` in the payload only when present on the input spec
(with their values passed through). -/
theorem createRepo_fork_second_token (cfg : ResolvedConfig) (id : Option String)
    (genId : String) (default_branch : Option String) (f : ForkBaseRepo)
    (ttl : Option Nat) :
    ∃ p : ForkPayload,
      (createRepoRequest cfg id genId default_branch (some (.fork f)) ttl).body.base_repo
        = some (.fork p)
      ∧ p.auth_token.subject = f.id
      ∧ p.auth_token.permissions = ["git:read"]
      ∧ (createRepoRequest cfg id genId default_branch (some (.fork f)) ttl).jwt.permissions
          = ["repo:write"]
      ∧ p.auth_token ≠ (createRepoRequest cfg id genId default_branch (some (.fork f)) ttl).jwt
      ∧ (∀ r, p.ref = some r → f.ref = some r)
      ∧ (strTruthy f.ref = true → p.ref = f.ref)
      ∧ (∀ s, p.sha = some s → f.sha = some s)
      ∧ (strTruthy f.sha = true → p.sha = f.sha) := by
  refine ⟨_, rfl, rfl, rfl, rfl, ?_, ?_, ?_, ?_, ?_⟩
  · intro h
    have hp := congrArg SignedToken.permissions h
    simp [createRepoRequest, generateJwt, JwtOptions.truthy] at hp
  · intro r hr
    by_cases ht : strTruthy f.ref
    · simpa [createRepoRequest, ht] using hr
    · simp [createRepoRequest, ht] at hr
  · intro ht
    simp [createRepoRequest, ht]
  · intro s hs
    by_cases ht : strTruthy f.sha
    · simpa [createRepoRequest, ht] using hs
    · simp [createRepoRequest, ht] at hs
  · intro ht
    simp [createRepoRequest, ht]

/-- Claim C8 (witness): the fork payload for a concrete spec with a
`ref` and no `sha`. -/
theorem createRepo_fork_second_token_witness :
    ∃ p : ForkPayload,
      (createRepoRequest sampleConfig none "gen-id" none
          (some (.fork { id := "base-repo", ref := some "v1", sha := none })) none).body.base_repo
        = some (.fork p)
      ∧ p.auth_token.subject = "base-repo"
      ∧ p.auth_token.permissions = ["git:read"]
      ∧ p.ref = some "v1" := by
  obtain ⟨p, h1, h2, h3, -, -, -, h4, -, -⟩ :=
    createRepo_fork_second_token sampleConfig none "gen-id" none
      { id := "base-repo", ref := some "v1", sha := none } none
  exact ⟨p, h1, h2, h3, by rw [h4 rfl]⟩

/-! ### Claim C10: fork create without explicit branch reports "main" -/

/-- Claim C10: a fork create with no explicit `default_branch` argument
sends no `default_branch` field in the request body, yet the Repo handle
returned on success reports `default_branch = "main"` (the client
substitutes "main" locally although the server decides the branch). -/
theorem createRepo_fork_reports_main (cfg : ResolvedConfig) (id : Option String)
    (genId : String) (f : ForkBaseRepo) (ttl : Option Nat) (resp : HttpResponse)
    (now : String) (hsucc : isSuccess resp.status_code = true) :
    (createRepoRequest cfg id genId none (some (.fork f)) ttl).body.default_branch = none
    ∧ ∃ handle,
        createRepo cfg id genId none (some (.fork f)) ttl resp now = .ok handle
        ∧ handle.default_branch = "main" := by
  have hb : 200 ≤ resp.status_code ∧ resp.status_code < 300 := by
    simpa [isSuccess] using hsucc
  have h409 : resp.status_code ≠ 409 := by omega
  constructor
  · simp [createRepoRequest]
  · refine ⟨{ id := if strTruthy id then id.getD "" else genId
              default_branch := "main"
              api_base_url := cfg.api_base_url
              storage_base_url := cfg.storage_base_url
              name := cfg.name
              api_version := cfg.api_version
              created_at := now }, ?_, rfl⟩
    simp [createRepo, createRepoRequest, h409, hsucc, strTruthy]

/-- Claim C10 (witness): a concrete successful fork create with no
explicit branch sends no `default_branch` and reports "main". -/
theorem createRepo_fork_reports_main_witness :
    (createRepoRequest sampleConfig none "gen-id" none
        (some (.fork { id := "base-repo", ref := none, sha := none })) none).body.default_branch
      = none
    ∧ ∃ handle,
        createRepo sampleConfig none "gen-id" none
            (some (.fork { id := "base-repo", ref := none, sha := none })) none
            ⟨200, "OK"⟩ "t0"
          = .ok handle
        ∧ handle.default_branch = "main" :=
  createRepo_fork_reports_main sampleConfig none "gen-id"
    { id := "base-repo", ref := none, sha := none } none ⟨200, "OK"⟩ "t0" rfl

end PierreStorage
